import Mathlib

/-!
Verification of the rule-based grading engine of `src/app.py`
(the Bootstrap-assignment auto-grader).

The grading core is embedded shallowly: the parsed HTML document
(BeautifulSoup object) becomes the `Soup` structure, each `grade_*`
function of the source becomes a Lean function of the same name, the
result dictionaries become the `Finding` structure, and the body of
`grade_assignment` (rule sequencing, total-score computation, final
feedback tiers and its single try/except block) becomes `gradeReport`,
`totalScore`, `finalFeedback` and `runRulesExc`.
-/

set_option autoImplicit false

namespace AlignBootstrap

mutual

/-- An HTML element as exposed by the parse tree: tag name, class tokens
(the `class` attribute split on whitespace), remaining attributes, and
child elements in document order. The child sequence is its own
inductive so that tree traversals are structurally recursive. -/
inductive Element where
  | mk : (tag : String) → (classes : List String) →
      (attrs : List (String × String)) → (children : ElementList) → Element

inductive ElementList where
  | nil : ElementList
  | cons : Element → ElementList → ElementList

end

/-- Tag name of an element. -/
def Element.tag : Element → String
  | .mk t _ _ _ => t

/-- Class tokens of an element. -/
def Element.classes : Element → List String
  | .mk _ c _ _ => c

/-- Attributes of an element (other than `class`). -/
def Element.attrs : Element → List (String × String)
  | .mk _ _ a _ => a

/-- Children of an element. -/
def Element.children : Element → ElementList
  | .mk _ _ _ ch => ch

/-- The child sequence as an ordinary list. -/
def ElementList.toList : ElementList → List Element
  | .nil => []
  | .cons e rest => e :: rest.toList

/-- Build a child sequence from an ordinary list. -/
def elist (l : List Element) : ElementList :=
  l.foldr ElementList.cons ElementList.nil

/-- Direct children of an element, as a list. -/
def Element.childrenList (e : Element) : List Element :=
  e.children.toList

/-- The parsed document. `originalEncoding` models `soup.original_encoding`
(set only when the parser had to detect a byte encoding; `none` when the
input was already a text string); `serialized` models `str(soup)`, the
re-serialized document text. -/
structure Soup where
  roots : List Element
  originalEncoding : Option String
  serialized : String

/-- One rule's result dictionary, as built by every `grade_*` function in
`src/app.py`: requirement name, pass flag, awarded score, maximum score,
feedback message, and the optional `found_elements` excerpt (absent in
the failing branches, hence `Option`). -/
structure Finding where
  requirement : String
  passed : Bool
  score : Nat
  max_score : Nat
  feedback : String
  found_elements : Option String
deriving Repr

/-- Python's substring test `pat in s`, on the character lists. -/
def strContainsAux (pat : List Char) : List Char → Bool
  | [] => pat.isPrefixOf []
  | c :: rest => pat.isPrefixOf (c :: rest) || strContainsAux pat rest

/-- Python's `pat in s` for strings. -/
def strContains (s pat : String) : Bool :=
  strContainsAux pat.data s.data

/-- Python's `s.lower()`: lowercase each character. -/
def pyLower (s : String) : String :=
  ⟨s.data.map Char.toLower⟩

/-- Python truthiness of an optional string (`None` and `""` are falsy). -/
def pyTruthy : Option String → Bool
  | none => false
  | some s => !s.isEmpty

mutual

/-- Modelled from the external library: `str(element)` serializes the tag,
its class attribute (tokens joined with spaces), its other attributes and
its children. The exact byte format is the library's; what matters to the
grader is only that it is a function of the element. -/
def elemStr : Element → String
  | .mk tag classes attrs children =>
    "<" ++ tag
      ++ (if classes.isEmpty then "" else
            " class=\"" ++ String.intercalate " " classes ++ "\"")
      ++ String.join (attrs.map (fun kv => " " ++ kv.1 ++ "=\"" ++ kv.2 ++ "\""))
      ++ ">"
      ++ elemStrList children
      ++ "</" ++ tag ++ ">"

/-- Serialization of a child sequence. -/
def elemStrList : ElementList → String
  | .nil => ""
  | .cons e rest => elemStr e ++ elemStrList rest

end

mutual

/-- The element followed by all its descendants, in document (pre-)order. -/
def Element.selfAndDescendants : Element → List Element
  | .mk tag classes attrs children =>
    Element.mk tag classes attrs children :: ElementList.descendants children

/-- All elements of a child sequence with their descendants, in document order. -/
def ElementList.descendants : ElementList → List Element
  | .nil => []
  | .cons e rest => e.selfAndDescendants ++ rest.descendants

end

/-- All elements of the document in document order. -/
def Soup.allElems (s : Soup) : List Element :=
  (s.roots.map Element.selfAndDescendants).flatten

/-- `soup.find_all(...)`: every element of the document satisfying the
predicate, in document order. -/
def Soup.findAll (s : Soup) (p : Element → Bool) : List Element :=
  s.allElems.filter p

/-- `soup.find(...)`: the first element of the document satisfying the
predicate, if any. -/
def Soup.findFirst (s : Soup) (p : Element → Bool) : Option Element :=
  (s.findAll p).head?

/-- Python's conditional excerpt `str(x)[:n] + '...' if len(str(x)) > n
else str(x)` used in `grade_container`. -/
def excerptIfLong (s : String) (n : Nat) : String :=
  if s.length > n then s.take n ++ "..." else s

/-- `grade_doctype` (src/app.py lines 177-198): awards its point iff
`soup.original_encoding` is truthy and the serialized document contains
the literal `<!DOCTYPE html>`. -/
def grade_doctype (soup : Soup) : Finding :=
  if pyTruthy soup.originalEncoding && strContains soup.serialized "<!DOCTYPE html>" then
    { requirement := "DOCTYPE Declaration", passed := true, score := 1, max_score := 1,
      feedback := "DOCTYPE declaration found.",
      found_elements := some "<!DOCTYPE html>" }
  else
    { requirement := "DOCTYPE Declaration", passed := false, score := 0, max_score := 1,
      feedback := "DOCTYPE declaration missing or incorrect.",
      found_elements := none }

/-- `soup.find('div', class_='container')`: the first `div` whose class
tokens include `container` (whole-token matching of a string class
argument, as the parse library does). -/
def findContainer (soup : Soup) : Option Element :=
  soup.findFirst fun e => e.tag == "div" && e.classes.contains "container"

/-- `grade_container` (src/app.py lines 200-222). -/
def grade_container (soup : Soup) : Finding :=
  match findContainer soup with
  | some container =>
    { requirement := "Bootstrap Container", passed := true, score := 1, max_score := 1,
      feedback := "Bootstrap container found.",
      found_elements := some (excerptIfLong (elemStr container) 200) }
  | none =>
    { requirement := "Bootstrap Container", passed := false, score := 0, max_score := 1,
      feedback := "No Bootstrap container found.",
      found_elements := none }

/-- `soup.find_all('div', class_='row')`: every `div` whose class tokens
include `row`. -/
def rowsList (soup : Soup) : List Element :=
  soup.findAll fun e => e.tag == "div" && e.classes.contains "row"

/-- `grade_rows` (src/app.py lines 224-246): full credit iff at least 4
row divs, otherwise 0. -/
def grade_rows (soup : Soup) : Finding :=
  if (rowsList soup).length ≥ 4 then
    { requirement := "Bootstrap Rows", passed := true, score := 1, max_score := 1,
      feedback := "Found " ++ toString (rowsList soup).length ++ " Bootstrap rows.",
      found_elements := some (String.intercalate "\n\n"
        (((rowsList soup).take 3).map fun row => (elemStr row).take 150 ++ "...")) }
  else
    { requirement := "Bootstrap Rows", passed := false, score := 0, max_score := 1,
      feedback := "Only found " ++ toString (rowsList soup).length
        ++ " row(s). Expected at least 4.",
      found_elements := none }

/-- The twelve class names `grade_columns` searches for. -/
def col_classes : List String :=
  ["col-1", "col-2", "col-3", "col-4", "col-5", "col-6",
   "col-7", "col-8", "col-9", "col-10", "col-11", "col-12"]

/-- The `columns` list of `grade_columns` (src/app.py lines 257-259): for
each of the twelve class names, all elements one of whose class tokens
equals it (`col_class in x.split()` on a class token is equality with
that token), concatenated — an element is repeated once per matching
class name. -/
def columnsList (soup : Soup) : List Element :=
  (col_classes.map fun cc => soup.findAll fun e => e.classes.contains cc).flatten

/-- `grade_columns` (src/app.py lines 248-277). -/
def grade_columns (soup : Soup) : Finding :=
  if (columnsList soup).length ≥ 8 then
    { requirement := "Bootstrap Columns", passed := true, score := 1, max_score := 1,
      feedback := "Found " ++ toString (columnsList soup).length ++ " Bootstrap columns.",
      found_elements := some (String.intercalate "\n\n"
        (((columnsList soup).take 5).map fun col => (elemStr col).take 100 ++ "...")) }
  else
    { requirement := "Bootstrap Columns", passed := false, score := 0, max_score := 1,
      feedback := "Only found " ++ toString (columnsList soup).length
        ++ " column(s). Expected multiple columns.",
      found_elements := none }

/-- The horizontal alignment class names of `grade_horizontal_alignment`. -/
def horiz_classes : List String :=
  ["justify-content-center", "justify-content-start", "justify-content-end",
   "justify-content-between", "justify-content-around"]

/-- The `found` list of `grade_horizontal_alignment`. -/
def horizFound (soup : Soup) : List Element :=
  (horiz_classes.map fun hc => soup.findAll fun e => e.classes.contains hc).flatten

/-- `grade_horizontal_alignment` (src/app.py lines 279-310). -/
def grade_horizontal_alignment (soup : Soup) : Finding :=
  if !(horizFound soup).isEmpty then
    { requirement := "Horizontal Alignment", passed := true, score := 1, max_score := 1,
      feedback := "Found horizontal alignment classes ("
        ++ toString (horizFound soup).length ++ " instances).",
      found_elements := some (String.intercalate "\n"
        (((horizFound soup).take 3).map fun e => (elemStr e).take 150)) }
  else
    { requirement := "Horizontal Alignment", passed := false, score := 0, max_score := 1,
      feedback := "No horizontal alignment classes found.",
      found_elements := none }

/-- The vertical alignment class names of `grade_vertical_alignment`. -/
def vert_classes : List String :=
  ["align-items-center", "align-items-start", "align-items-end",
   "align-items-baseline", "align-items-stretch"]

/-- The `found` list of `grade_vertical_alignment`. -/
def vertFound (soup : Soup) : List Element :=
  (vert_classes.map fun vc => soup.findAll fun e => e.classes.contains vc).flatten

/-- `grade_vertical_alignment` (src/app.py lines 312-343). -/
def grade_vertical_alignment (soup : Soup) : Finding :=
  if !(vertFound soup).isEmpty then
    { requirement := "Vertical Alignment", passed := true, score := 1, max_score := 1,
      feedback := "Found vertical alignment classes ("
        ++ toString (vertFound soup).length ++ " instances).",
      found_elements := some (String.intercalate "\n"
        (((vertFound soup).take 3).map fun e => (elemStr e).take 150)) }
  else
    { requirement := "Vertical Alignment", passed := false, score := 0, max_score := 1,
      feedback := "No vertical alignment classes found.",
      found_elements := none }

/-- The link list of `grade_bootstrap_css`: `<link>` elements whose `href`
attribute is truthy and whose lowercased value contains `bootstrap`. -/
def bootstrapCssLinks (soup : Soup) : List Element :=
  soup.findAll fun e => e.tag == "link" &&
    (match e.attrs.lookup "href" with
     | none => false
     | some x => !x.isEmpty && strContains (pyLower x) "bootstrap")

/-- `grade_bootstrap_css` (src/app.py lines 345-369). -/
def grade_bootstrap_css (soup : Soup) : Finding :=
  if !(bootstrapCssLinks soup).isEmpty then
    { requirement := "Bootstrap CSS Link", passed := true, score := 1, max_score := 1,
      feedback := "Bootstrap CSS link found.",
      found_elements := some (String.intercalate "\n"
        ((bootstrapCssLinks soup).map elemStr)) }
  else
    { requirement := "Bootstrap CSS Link", passed := false, score := 0, max_score := 1,
      feedback := "Bootstrap CSS link not found.",
      found_elements := none }

/-- The script list of `grade_bootstrap_js`: `<script>` elements whose
`src` attribute is truthy and whose lowercased value contains `bootstrap`. -/
def bootstrapJsScripts (soup : Soup) : List Element :=
  soup.findAll fun e => e.tag == "script" &&
    (match e.attrs.lookup "src" with
     | none => false
     | some x => !x.isEmpty && strContains (pyLower x) "bootstrap")

/-- `grade_bootstrap_js` (src/app.py lines 371-395). -/
def grade_bootstrap_js (soup : Soup) : Finding :=
  if !(bootstrapJsScripts soup).isEmpty then
    { requirement := "Bootstrap JS Script", passed := true, score := 1, max_score := 1,
      feedback := "Bootstrap JS script found.",
      found_elements := some (String.intercalate "\n"
        ((bootstrapJsScripts soup).map elemStr)) }
  else
    { requirement := "Bootstrap JS Script", passed := false, score := 0, max_score := 1,
      feedback := "Bootstrap JS script not found.",
      found_elements := none }

/-- The utility patterns of `grade_specific_classes`. -/
def utility_classes : List String :=
  ["bg-", "text-", "p-", "m-", "rounded", "shadow", "fs-", "fw-"]

/-- The class predicate of `grade_specific_classes`: `util in x` is
Python substring containment, checked against each class token. -/
def utilMatch (u : String) (e : Element) : Bool :=
  e.classes.any fun c => strContains c u

/-- The loop of `grade_specific_classes` (src/app.py lines 405-412):
accumulates `found_count` and up to three example excerpts. -/
def utilityScan (soup : Soup) : Nat × List String :=
  utility_classes.foldl
    (fun acc u =>
      match soup.findAll (utilMatch u), decide (acc.2.length < 3) with
      | e :: es, true =>
        (acc.1 + (e :: es).length, acc.2 ++ [(elemStr e).take 150])
      | elements, _ => (acc.1 + elements.length, acc.2))
    (0, [])

/-- `grade_specific_classes` (src/app.py lines 397-430). -/
def grade_specific_classes (soup : Soup) : Finding :=
  if (utilityScan soup).1 ≥ 10 then
    { requirement := "Bootstrap Utility Classes", passed := true, score := 1, max_score := 1,
      feedback := "Found " ++ toString (utilityScan soup).1
        ++ " Bootstrap utility class instances.",
      found_elements := some (String.intercalate "\n\n" (utilityScan soup).2) }
  else
    { requirement := "Bootstrap Utility Classes", passed := false, score := 0, max_score := 1,
      feedback := "Only found " ++ toString (utilityScan soup).1
        ++ " utility class instances. Expected more.",
      found_elements := none }

/-- `container.find_all('div', class_='row', recursive=False)`: direct
children of the container that are divs with class token `row`. -/
def directRows (c : Element) : List Element :=
  c.childrenList.filter fun e => e.tag == "div" && e.classes.contains "row"

/-- The shared failing result of `grade_layout_structure`. -/
def layoutFail : Finding :=
  { requirement := "Layout Structure", passed := false, score := 0, max_score := 1,
    feedback := "Layout structure needs improvement. Should have container with multiple row sections.",
    found_elements := none }

/-- `grade_layout_structure` (src/app.py lines 432-459): looks up the
first container div and counts its direct-child row divs. -/
def grade_layout_structure (soup : Soup) : Finding :=
  match findContainer soup with
  | some container =>
    if (directRows container).length ≥ 3 then
      { requirement := "Layout Structure", passed := true, score := 1, max_score := 1,
        feedback := "Good layout structure with " ++ toString (directRows container).length
          ++ " main sections.",
        found_elements := some ("Container with " ++ toString (directRows container).length
          ++ " direct child rows") }
    else layoutFail
  | none => layoutFail

/-- The `results` list of `grade_assignment` (src/app.py lines 77-86):
the ten rule results in declared order. -/
def gradeReport (soup : Soup) : List Finding :=
  [grade_doctype soup, grade_container soup, grade_rows soup, grade_columns soup,
   grade_horizontal_alignment soup, grade_vertical_alignment soup,
   grade_bootstrap_css soup, grade_bootstrap_js soup,
   grade_specific_classes soup, grade_layout_structure soup]

/-- `total_score = sum(result['score'] for result in results)`
(src/app.py line 89). -/
def totalScore (soup : Soup) : Nat :=
  ((gradeReport soup).map Finding.score).sum

/-- `max_score = 10` (src/app.py line 54). -/
def maxScore : Nat := 10

/-- The four final-feedback messages of src/app.py lines 118-125. -/
def excellentMsg : String := "🎉 Excellent work! All requirements are met perfectly!"

/-- The second-tier message (src/app.py line 121). -/
def goodMsg : String := "👍 Good job! Most requirements are met."

/-- The third-tier message (src/app.py line 123). -/
def fairMsg : String := "📝 Fair attempt, but needs improvement."

/-- The bottom-tier message (src/app.py line 125). -/
def poorMsg : String := "🚨 Needs significant improvement. Please review the requirements."

/-- The final-feedback cascade of `grade_assignment`
(src/app.py lines 118-125), keyed on `total_score`. -/
def finalFeedback (total_score : Nat) : String :=
  if total_score ≥ 9 then excellentMsg
  else if total_score ≥ 7 then goodMsg
  else if total_score ≥ 5 then fairMsg
  else poorMsg

/-- Modelled from the external library: `BeautifulSoup(text, "html.parser")`
applied to a text string — as `grade_assignment` does with the fetched
`response.text` — records no `original_encoding` (encoding detection only
runs on byte input), and `str(soup)` re-serializes the document text.
Tree construction itself is the supplied external capability, so the
resulting element list is a parameter. -/
def parseString (html : String) (roots : List Element) : Soup :=
  { roots := roots, originalEncoding := none, serialized := html }

/-- Models the exception flow of `grade_assignment` (src/app.py lines
57-128): the ten rule calls run inside one try block, so an exception
raised by any rule propagates out of the whole block to the single
except handler, which displays an error message and produces no report.
Each list entry is the outcome of one rule call. -/
def runRulesExc : List (Except String Finding) → Except String (List Finding)
  | [] => Except.ok []
  | Except.error msg :: _ => Except.error msg
  | Except.ok f :: rest =>
    match runRulesExc rest with
    | Except.error msg => Except.error msg
    | Except.ok fs => Except.ok (f :: fs)

/-! Concrete documents used to evaluate the rules at specific inputs. -/

/-- The empty document. -/
def emptySoup : Soup :=
  { roots := [], originalEncoding := none, serialized := "" }

/-- A `div` element with the given class tokens and children. -/
def mkDiv (classes : List String) (children : List Element) : Element :=
  Element.mk "div" classes [] (elist children)

/-- A `span` element with the given class tokens. -/
def mkSpan (classes : List String) : Element :=
  Element.mk "span" classes [] (elist [])

/-- A document with exactly two row divs. -/
def twoRowSoup : Soup :=
  { roots := [mkDiv ["row"] [], mkDiv ["row"] []],
    originalEncoding := none, serialized := "" }

/-- A document whose only element has the bare class token `col`. -/
def bareColSoup : Soup :=
  { roots := [mkDiv ["col"] []], originalEncoding := none, serialized := "" }

/-- A document whose only element has the class token `col-6`. -/
def bareColSixSoup : Soup :=
  { roots := [mkDiv ["col-6"] []], originalEncoding := none, serialized := "" }

/-- A document whose only element is a span with class `container`. -/
def spanContainerSoup : Soup :=
  { roots := [mkSpan ["container"]], originalEncoding := none, serialized := "" }

/-- A container div whose three direct children are spans with class `row`. -/
def spanRowsSoup : Soup :=
  { roots := [mkDiv ["container"] [mkSpan ["row"], mkSpan ["row"], mkSpan ["row"]]],
    originalEncoding := none, serialized := "" }

/-- A container div with three direct-child row divs. -/
def threeRowSoup : Soup :=
  { roots := [mkDiv ["container"] [mkDiv ["row"] [], mkDiv ["row"] [], mkDiv ["row"] []]],
    originalEncoding := none, serialized := "" }

/-- An element whose only class token is `help-text`. -/
def helpTextElem : Element := mkDiv ["help-text"] []

/-- A document whose only element carries the class token `help-text`. -/
def helpTextSoup : Soup :=
  { roots := [helpTextElem], originalEncoding := none, serialized := "" }

/-! Per-rule score bounds: every rule awards either 0 or its maximum,
and every rule's maximum is 1 point. -/

/-- Score bound for the DOCTYPE rule. -/
theorem grade_doctype_bounds (s : Soup) :
    (grade_doctype s).score ≤ 1 ∧ (grade_doctype s).max_score = 1 := by
  unfold grade_doctype; split <;> simp

/-- Score bound for the container rule. -/
theorem grade_container_bounds (s : Soup) :
    (grade_container s).score ≤ 1 ∧ (grade_container s).max_score = 1 := by
  unfold grade_container; split <;> simp

/-- Score bound for the rows rule. -/
theorem grade_rows_bounds (s : Soup) :
    (grade_rows s).score ≤ 1 ∧ (grade_rows s).max_score = 1 := by
  unfold grade_rows; split <;> simp

/-- Score bound for the columns rule. -/
theorem grade_columns_bounds (s : Soup) :
    (grade_columns s).score ≤ 1 ∧ (grade_columns s).max_score = 1 := by
  unfold grade_columns; split <;> simp

/-- Score bound for the horizontal alignment rule. -/
theorem grade_horizontal_bounds (s : Soup) :
    (grade_horizontal_alignment s).score ≤ 1 ∧ (grade_horizontal_alignment s).max_score = 1 := by
  unfold grade_horizontal_alignment; split <;> simp

/-- Score bound for the vertical alignment rule. -/
theorem grade_vertical_bounds (s : Soup) :
    (grade_vertical_alignment s).score ≤ 1 ∧ (grade_vertical_alignment s).max_score = 1 := by
  unfold grade_vertical_alignment; split <;> simp

/-- Score bound for the Bootstrap CSS rule. -/
theorem grade_css_bounds (s : Soup) :
    (grade_bootstrap_css s).score ≤ 1 ∧ (grade_bootstrap_css s).max_score = 1 := by
  unfold grade_bootstrap_css; split <;> simp

/-- Score bound for the Bootstrap JS rule. -/
theorem grade_js_bounds (s : Soup) :
    (grade_bootstrap_js s).score ≤ 1 ∧ (grade_bootstrap_js s).max_score = 1 := by
  unfold grade_bootstrap_js; split <;> simp

/-- Score bound for the utility classes rule. -/
theorem grade_specific_bounds (s : Soup) :
    (grade_specific_classes s).score ≤ 1 ∧ (grade_specific_classes s).max_score = 1 := by
  unfold grade_specific_classes; split <;> simp

/-- Score bound for the layout structure rule. -/
theorem grade_layout_bounds (s : Soup) :
    (grade_layout_structure s).score ≤ 1 ∧ (grade_layout_structure s).max_score = 1 := by
  unfold grade_layout_structure
  split
  · split <;> simp [layoutFail]
  · simp [layoutFail]

/-- Claim C1: for every element tree and the fixed rule set, scoring is
deterministic and pure: two evaluations of the ten grading rules on the
same tree produce identical reports (same per-rule passed, score and
feedback, and same total score). Rule evaluation is a pure function of
the tree: in the embedding of `grade_assignment` (src/app.py lines
77-89) every rule is a function of the soup alone, reads no other state
and returns a fresh result, so the report is fully determined by the
tree. -/
theorem scoring_deterministic (s t : Soup) (h : s = t) :
    gradeReport s = gradeReport t ∧
    (gradeReport s).map Finding.passed = (gradeReport t).map Finding.passed ∧
    (gradeReport s).map Finding.score = (gradeReport t).map Finding.score ∧
    (gradeReport s).map Finding.feedback = (gradeReport t).map Finding.feedback ∧
    totalScore s = totalScore t := by
  subst h
  exact ⟨rfl, rfl, rfl, rfl, rfl⟩

/-- Witness for C1 at the empty document. -/
theorem scoring_deterministic_witness :
    gradeReport emptySoup = gradeReport emptySoup ∧
    totalScore emptySoup = totalScore emptySoup :=
  ⟨(scoring_deterministic emptySoup emptySoup rfl).1,
   (scoring_deterministic emptySoup emptySoup rfl).2.2.2.2⟩

/-- Claim C2: for every input tree, the total score (the sum of the ten
findings' scores, src/app.py line 89) never exceeds the maximum score
(the sum of the per-rule maxima, which is the constant 10 of line 54),
and each individual finding's score satisfies 0 ≤ score ≤ max_score. -/
theorem report_score_bounded (s : Soup) (f : Finding) (hf : f ∈ gradeReport s) :
    totalScore s ≤ maxScore ∧
    ((gradeReport s).map Finding.max_score).sum = maxScore ∧
    0 ≤ f.score ∧ f.score ≤ f.max_score := by
  have h1 := grade_doctype_bounds s
  have h2 := grade_container_bounds s
  have h3 := grade_rows_bounds s
  have h4 := grade_columns_bounds s
  have h5 := grade_horizontal_bounds s
  have h6 := grade_vertical_bounds s
  have h7 := grade_css_bounds s
  have h8 := grade_js_bounds s
  have h9 := grade_specific_bounds s
  have h10 := grade_layout_bounds s
  refine ⟨?_, ?_, Nat.zero_le _, ?_⟩
  · simp only [totalScore, gradeReport, List.map_cons, List.map_nil, List.sum_cons,
      List.sum_nil, maxScore]
    omega
  · simp only [gradeReport, List.map_cons, List.map_nil, List.sum_cons, List.sum_nil, maxScore]
    omega
  · simp only [gradeReport, List.mem_cons, List.not_mem_nil, or_false] at hf
    rcases hf with rfl | rfl | rfl | rfl | rfl | rfl | rfl | rfl | rfl | rfl <;> omega

/-- Witness for C2 at the empty document and its DOCTYPE finding. -/
theorem report_score_bounded_witness :
    grade_doctype emptySoup ∈ gradeReport emptySoup ∧
    (totalScore emptySoup ≤ maxScore ∧
     ((gradeReport emptySoup).map Finding.max_score).sum = maxScore ∧
     0 ≤ (grade_doctype emptySoup).score ∧
     (grade_doctype emptySoup).score ≤ (grade_doctype emptySoup).max_score) :=
  ⟨by simp [gradeReport],
   report_score_bounded emptySoup (grade_doctype emptySoup) (by simp [gradeReport])⟩

/-- Claim C3 counterexample: a tree with exactly two row-marker divs —
more than zero, below the threshold — is awarded 0 points by the rows
rule, not linear partial credit; zero points are not reserved for trees
with no row markers at all. -/
theorem rows_partial_credit_counterexample :
    (rowsList twoRowSoup).length = 2 ∧
    (grade_rows twoRowSoup).score = 0 ∧
    (grade_rows twoRowSoup).passed = false := by decide

/-- Claim C3 amended: when a tree contains fewer than 4 row-marker divs
(even when more than zero), the rows rule awards 0 points — there is no
partial credit; credit is all-or-nothing at the threshold of 4 — with
passed = false, and the ten-finding report is still produced. -/
theorem rows_all_or_nothing (s : Soup) (h : (rowsList s).length < 4) :
    (grade_rows s).score = 0 ∧ (grade_rows s).passed = false ∧
    (gradeReport s).length = 10 := by
  refine ⟨?_, ?_, by simp [gradeReport]⟩ <;>
    · unfold grade_rows
      rw [if_neg (by omega)]

/-- Witness for the amended C3 at the two-row document. -/
theorem rows_all_or_nothing_witness :
    (rowsList twoRowSoup).length < 4 ∧
    ((grade_rows twoRowSoup).score = 0 ∧ (grade_rows twoRowSoup).passed = false ∧
     (gradeReport twoRowSoup).length = 10) :=
  ⟨by decide, rows_all_or_nothing twoRowSoup (by decide)⟩

/-- Claim C4 counterexample: an element whose class token is the bare
`col` is not counted as a column by `grade_columns` — the rule only
searches for the literal classes `col-1` … `col-12` — so the claimed
acceptance of bare `col` (and of `col-<N>` for every N) fails. -/
theorem columns_bare_col_counterexample :
    (bareColSoup.allElems.any fun e => e.classes.contains "col") = true ∧
    (columnsList bareColSoup).length = 0 ∧
    (grade_columns bareColSoup).score = 0 ∧
    (grade_columns bareColSoup).passed = false := by decide

/-- Claim C4 amended: the columns rule counts an element iff one of its
class tokens is literally one of `col-1` … `col-12` (whole-token): the
token `col-6` is in that list, while bare `col` and `collapse` are not. -/
theorem columns_token_set (s : Soup) (e : Element) :
    (e ∈ columnsList s ↔
      e ∈ s.allElems ∧ ∃ cc ∈ col_classes, e.classes.contains cc = true) ∧
    "col-6" ∈ col_classes ∧ "col" ∉ col_classes ∧ "collapse" ∉ col_classes := by
  refine ⟨?_, by decide, by decide, by decide⟩
  simp only [columnsList, Soup.findAll, List.mem_flatten, List.mem_map]
  constructor
  · rintro ⟨l, ⟨cc, hcc, rfl⟩, hel⟩
    have hm := List.mem_filter.mp hel
    exact ⟨hm.1, cc, hcc, hm.2⟩
  · rintro ⟨he, cc, hcc, hc⟩
    exact ⟨_, ⟨cc, hcc, rfl⟩, List.mem_filter.mpr ⟨he, hc⟩⟩

/-- Witness for the amended C4: a div with class token `col-6` is counted. -/
theorem columns_token_set_witness :
    mkDiv ["col-6"] [] ∈ columnsList bareColSixSoup :=
  (columns_token_set bareColSixSoup (mkDiv ["col-6"] [])).1.mpr
    ⟨List.mem_singleton.mpr rfl, "col-6", by decide, by decide⟩

/-- Claim C5 counterexample: the utility-class rule does not use
whole-token matching: the single class token `help-text` is counted as a
match for the pattern `p-` (Python substring containment), although it
is neither equal to any utility pattern nor has one as a prefix. -/
theorem whole_token_counterexample :
    utilMatch "p-" helpTextElem = true ∧
    (utilityScan helpTextSoup).1 = 1 ∧
    (utility_classes.all fun u =>
      !(u.data.isPrefixOf "help-text".data) && !("help-text" == u)) = true := by decide

/-- Claim C5 amended: the rows rule does match whole tokens — a div whose
only class token is `rowspan-item` never satisfies the row predicate,
while one carrying the token `row` always does — but the utility-class
richness rule matches by substring containment instead, so the token
`help-text` is counted for the pattern `p-`. -/
theorem token_matching_amended (s : Soup) (e : Element) (hmem : e ∈ s.allElems)
    (hdiv : e.tag = "div") :
    (e.classes = ["rowspan-item"] → e ∉ rowsList s) ∧
    ("row" ∈ e.classes → e ∈ rowsList s) ∧
    (e.classes = ["help-text"] → utilMatch "p-" e = true) := by
  refine ⟨?_, ?_, ?_⟩
  · intro hcl hin
    have hp := (List.mem_filter.mp hin).2
    rw [hcl] at hp
    simp at hp
  · intro hrow
    refine List.mem_filter.mpr ⟨hmem, ?_⟩
    simp [hdiv, hrow]
  · intro hcl
    simp [utilMatch, hcl]
    decide

/-- Witness for the amended C5 at the help-text document. -/
theorem token_matching_amended_witness :
    utilMatch "p-" helpTextElem = true :=
  (token_matching_amended helpTextSoup helpTextElem
    (List.mem_singleton.mpr rfl) rfl).2.2 rfl

/-- Claim C6 counterexample: a total score of 5 (50%, below the claimed
70% cutoff) produces a feedback message different from the one at total
4 — two distinct tiers below 70% — and different from the Good and
Excellent tiers, so the claimed three-tier rubric with a single
below-70% tier does not match the code. -/
theorem feedback_tiers_counterexample :
    finalFeedback 5 ≠ finalFeedback 4 ∧
    finalFeedback 5 ≠ goodMsg ∧
    finalFeedback 5 ≠ excellentMsg := by decide

/-- Claim C6 amended: the final feedback has four tiers, keyed on the
total score out of 10 (src/app.py lines 118-125): at least 9 (90%) gives
the Excellent message, at least 7 (70%) the Good message, at least 5
(50%) the Fair message, and everything below 5 the
Needs-significant-improvement message; the four messages are pairwise
distinct. -/
theorem feedback_tiers_amended (t : Nat) :
    (finalFeedback t = excellentMsg ↔ 9 ≤ t) ∧
    (finalFeedback t = goodMsg ↔ 7 ≤ t ∧ t < 9) ∧
    (finalFeedback t = fairMsg ↔ 5 ≤ t ∧ t < 7) ∧
    (finalFeedback t = poorMsg ↔ t < 5) := by
  have h1 : excellentMsg ≠ goodMsg := by decide
  have h2 : excellentMsg ≠ fairMsg := by decide
  have h3 : excellentMsg ≠ poorMsg := by decide
  have h4 : goodMsg ≠ fairMsg := by decide
  have h5 : goodMsg ≠ poorMsg := by decide
  have h6 : fairMsg ≠ poorMsg := by decide
  unfold finalFeedback
  split_ifs with ha hb hc <;>
    refine ⟨⟨fun hx => ?_, fun hx => ?_⟩, ⟨fun hx => ?_, fun hx => ?_⟩,
            ⟨fun hx => ?_, fun hx => ?_⟩, ⟨fun hx => ?_, fun hx => ?_⟩⟩ <;>
    first
      | rfl
      | omega
      | exact absurd hx h1
      | exact absurd hx h2
      | exact absurd hx h3
      | exact absurd hx h4
      | exact absurd hx h5
      | exact absurd hx h6
      | exact absurd hx.symm h1
      | exact absurd hx.symm h2
      | exact absurd hx.symm h3
      | exact absurd hx.symm h4
      | exact absurd hx.symm h5
      | exact absurd hx.symm h6

/-- Claim C7 counterexample: with the first rule's evaluation failing and
the remaining nine succeeding, the try block of `grade_assignment`
yields the propagated error: no report containing the remaining findings
is produced, so a broken rule is not recovered locally. -/
theorem rule_failure_counterexample :
    runRulesExc (Except.error "RuleEvaluationError"
        :: ((gradeReport emptySoup).drop 1).map Except.ok)
      = Except.error "RuleEvaluationError" ∧
    (runRulesExc (Except.error "RuleEvaluationError"
        :: ((gradeReport emptySoup).drop 1).map Except.ok)).isOk = false :=
  ⟨rfl, rfl⟩

/-- Claim C7 amended: if any rule's evaluation raises, the exception
propagates out of the single try block surrounding all ten rule calls:
grading aborts with that error and no report — not even a partial one —
is produced; only when every rule evaluation succeeds is the full report
returned. -/
theorem rule_failure_aborts (pre post : List (Except String Finding)) (msg : String)
    (s : Soup) (h : ∀ r ∈ pre, r.isOk = true) :
    runRulesExc (pre ++ Except.error msg :: post) = Except.error msg ∧
    runRulesExc ((gradeReport s).map Except.ok) = Except.ok (gradeReport s) := by
  refine ⟨?_, rfl⟩
  induction pre with
  | nil => rfl
  | cons r rs ih =>
    cases r with
    | error e =>
      have hr := h _ (List.mem_cons_self _ _)
      simp [Except.isOk, Except.toBool] at hr
    | ok f =>
      have hrs : ∀ x ∈ rs, x.isOk = true := fun x hx => h _ (List.mem_cons_of_mem _ hx)
      simp only [List.cons_append, runRulesExc]
      rw [List.append_eq, ih hrs]

/-- Witness for the amended C7: a lone failing rule yields the error, and
the all-successful run at the empty document yields the full report. -/
theorem rule_failure_aborts_witness :
    runRulesExc ([] ++ Except.error "RuleEvaluationError" :: [])
      = Except.error "RuleEvaluationError" ∧
    runRulesExc ((gradeReport emptySoup).map Except.ok)
      = Except.ok (gradeReport emptySoup) :=
  rule_failure_aborts [] [] "RuleEvaluationError" emptySoup (by simp)

/-- A successful `find` returns a document element satisfying the predicate. -/
theorem findFirst_some {s : Soup} {p : Element → Bool} {c : Element}
    (h : s.findFirst p = some c) : c ∈ s.allElems ∧ p c = true := by
  unfold Soup.findFirst Soup.findAll at h
  have hc : c ∈ s.allElems.filter p := by
    cases hl : s.allElems.filter p with
    | nil => rw [hl] at h; cases h
    | cons a l =>
      rw [hl] at h
      simp only [List.head?_cons, Option.some.injEq] at h
      rw [h]
      exact List.mem_cons_self _ _
  exact ⟨(List.mem_filter.mp hc).1, (List.mem_filter.mp hc).2⟩

/-- A failed `find` means no document element satisfies the predicate. -/
theorem findFirst_none {s : Soup} {p : Element → Bool}
    (h : s.findFirst p = none) : ∀ e ∈ s.allElems, p e = false := by
  unfold Soup.findFirst Soup.findAll at h
  have hnil := List.head?_eq_none_iff.mp h
  intro e he
  have hp := List.filter_eq_nil_iff.mp hnil e he
  cases hpe : p e
  · rfl
  · exact absurd hpe hp

/-- Claim C8 counterexample: a span whose class tokens include
`container` — an element of a non-div tag matching the container class —
does not make the container rule pass, because the rule searches div
elements only. -/
theorem container_any_tag_counterexample :
    (spanContainerSoup.allElems.any fun e => e.classes.contains "container") = true ∧
    (grade_container spanContainerSoup).passed = false ∧
    (grade_container spanContainerSoup).score = 0 := by decide

/-- Claim C8 amended: the container rule passes, awarding its full
1-point weight, iff the tree contains at least one div element whose
class tokens include `container`; there is no partial credit — the
score is 0 or the maximum, and it is the maximum exactly on a pass. -/
theorem container_div_only (s : Soup) :
    ((grade_container s).passed = true ↔
      ∃ e ∈ s.allElems, e.tag = "div" ∧ "container" ∈ e.classes) ∧
    ((grade_container s).score = (grade_container s).max_score ↔
      (grade_container s).passed = true) ∧
    ((grade_container s).score = 0 ∨ (grade_container s).score = (grade_container s).max_score) := by
  cases h : findContainer s with
  | some c =>
    have hc := findFirst_some (p := fun e => e.tag == "div" && e.classes.contains "container") h
    simp only [Bool.and_eq_true, beq_iff_eq] at hc
    unfold grade_container
    rw [h]
    refine ⟨?_, by simp, by simp⟩
    simp only [true_iff]
    exact ⟨c, hc.1, hc.2.1, List.elem_iff.mp hc.2.2⟩
  | none =>
    have hn := findFirst_none (p := fun e => e.tag == "div" && e.classes.contains "container") h
    unfold grade_container
    rw [h]
    refine ⟨?_, by simp, by simp⟩
    refine ⟨fun hft => absurd hft (by decide), ?_⟩
    rintro ⟨e, he, htag, hcl⟩
    have htrue : (fun e => e.tag == "div" && e.classes.contains "container") e = true := by
      simp only [Bool.and_eq_true, beq_iff_eq]
      exact ⟨htag, List.elem_iff.mpr hcl⟩
    rw [hn e he] at htrue
    exact htrue

/-- Witness for the amended C8: the document with a div container passes
with the full point. -/
theorem container_div_only_witness :
    (grade_container spanRowsSoup).passed = true ∧
    (grade_container spanRowsSoup).score = (grade_container spanRowsSoup).max_score :=
  ⟨by decide, (container_div_only spanRowsSoup).2.1.mpr (by decide)⟩

/-- Claim C9 counterexample: a container div whose three direct children
are spans carrying the row class fails the layout-structure rule — the
non-recursive search counts only div children — although a container
element does have at least 3 direct-child elements carrying the
row-marker class. -/
theorem layout_structure_counterexample :
    (findContainer spanRowsSoup).isSome = true ∧
    ((findContainer spanRowsSoup).map fun c =>
      (c.childrenList.filter fun e => e.classes.contains "row").length) = some 3 ∧
    (grade_layout_structure spanRowsSoup).passed = false ∧
    (grade_layout_structure spanRowsSoup).score = 0 := by decide

/-- Claim C9 amended: the layout-structure rule passes iff the first
container div found in document order has at least 3 direct-child div
elements carrying the row class (non-recursive search over its children
only); it awards its full 1-point weight on pass and zero otherwise. -/
theorem layout_structure_amended (s : Soup) :
    ((grade_layout_structure s).passed = true ↔
      ∃ c, findContainer s = some c ∧ 3 ≤ (directRows c).length) ∧
    ((grade_layout_structure s).passed = true → (grade_layout_structure s).score = 1) ∧
    ((grade_layout_structure s).passed = false → (grade_layout_structure s).score = 0) := by
  cases h : findContainer s with
  | some c =>
    have hval : grade_layout_structure s =
        if (directRows c).length ≥ 3 then
          { requirement := "Layout Structure", passed := true, score := 1, max_score := 1,
            feedback := "Good layout structure with " ++ toString (directRows c).length
              ++ " main sections.",
            found_elements := some ("Container with " ++ toString (directRows c).length
              ++ " direct child rows") }
        else layoutFail := by
      unfold grade_layout_structure
      rw [h]
    rw [hval]
    by_cases hlen : (directRows c).length ≥ 3
    · rw [if_pos hlen]
      exact ⟨⟨fun _ => ⟨c, rfl, hlen⟩, fun _ => rfl⟩, fun _ => rfl, fun hf => absurd hf (by simp)⟩
    · rw [if_neg hlen]
      refine ⟨⟨fun hft => absurd hft (by decide), ?_⟩,
        fun hpt => absurd hpt (by decide), fun _ => rfl⟩
      rintro ⟨c2, hc2, hl2⟩
      injection hc2 with hcc
      subst hcc
      exact absurd hl2 hlen
  | none =>
    have hval : grade_layout_structure s = layoutFail := by
      unfold grade_layout_structure
      rw [h]
    rw [hval]
    refine ⟨⟨fun hft => absurd hft (by decide), ?_⟩,
      fun hpt => absurd hpt (by decide), fun _ => rfl⟩
    rintro ⟨c2, hc2, _⟩
    exact Option.noConfusion hc2

/-- Witness for the amended C9: the container with three direct row divs
passes with the full point. -/
theorem layout_structure_amended_witness :
    (grade_layout_structure threeRowSoup).passed = true ∧
    (grade_layout_structure threeRowSoup).score = 1 :=
  ⟨by decide, (layout_structure_amended threeRowSoup).2.1 (by decide)⟩

/-- Claim C10: the report always contains the DOCTYPE Declaration
finding (it is the first entry); the finding awards its single point iff
`soup.original_encoding` is truthy (non-empty) and the serialized
document contains the literal `<!DOCTYPE html>`; and since the grader
builds the soup from the fetched text string — for which the parser
records no original encoding — every string-parsed submission gets 0 on
this finding, even when the document contains the DOCTYPE. -/
theorem doctype_rule_characterization (s : Soup) (html : String) (roots : List Element) :
    (gradeReport s).head? = some (grade_doctype s) ∧
    (grade_doctype s).requirement = "DOCTYPE Declaration" ∧
    ((grade_doctype s).score = 1 ↔
      (pyTruthy s.originalEncoding = true ∧
       strContains s.serialized "<!DOCTYPE html>" = true)) ∧
    (grade_doctype (parseString html roots)).score = 0 ∧
    (grade_doctype (parseString html roots)).passed = false := by
  refine ⟨rfl, ?_, ?_, rfl, rfl⟩
  · unfold grade_doctype; split <;> rfl
  · unfold grade_doctype
    split
    · next hcond => simp only [Bool.and_eq_true] at hcond; simp [hcond]
    · next hcond =>
      simp only [Bool.and_eq_true] at hcond
      simp only [show (0 : Nat) ≠ 1 from by decide, false_iff]
      intro hc
      exact hcond ⟨hc.1, hc.2⟩

end AlignBootstrap
